import Mathlib

/-!
Shallow embedding of `src/state/swap/hooks.tsx` from the animswap frontend:
the swap-widget view-state layer (URL query parsing, swap state, and the
derived-info computation with its `inputError` priority chain).

External collaborators (the `isAddress` validator from `utils`, the coin
lookup, `tryParseCoinAmount`, and the pricing hook) are modelled as explicit
parameters of the embedding: the theorems quantify over their behaviour.
Machine numbers (`Decimal` balances and amounts) are modelled as exact
rationals; JS truthiness of `string | null | undefined` values is modelled
explicitly.
-/

namespace AnimSwap

/-- `Field` from `state/swap/actions`: the two swap sides. -/
inductive Field where
  | INPUT
  | OUTPUT
deriving DecidableEq, Repr

/-- One side of the swap state: `{ currencyId: string | null }`. -/
structure SwapFieldState where
  currencyId : Option String
deriving DecidableEq, Repr

/-- `SwapState` from `state/swap/reducer`:
`{ INPUT, OUTPUT, typedValue, independentField, recipient }`. -/
structure SwapState where
  INPUT : SwapFieldState
  OUTPUT : SwapFieldState
  typedValue : String
  independentField : Field
  recipient : Option String
deriving DecidableEq, Repr

/-- A value of the parsed query string (`ParsedQs[string]` from the `qs`
package): absent/undefined, a string, an array, or a nested object.  The
code only ever distinguishes `typeof v === 'string'` from everything else,
so arrays and objects carry no payload here. -/
inductive QsValue where
  | undef
  | str (s : String)
  | arr
  | obj
deriving DecidableEq, Repr

/-- The query object consumed by `queryParametersToSwapState`: the five keys
it reads (each possibly absent or malformed). -/
structure ParsedQs where
  inputCurrency : QsValue
  outputCurrency : QsValue
  exactAmount : QsValue
  exactField : QsValue
  recipient : QsValue
deriving DecidableEq, Repr

/-- The empty query object `{}`: every key absent. -/
def emptyQs : ParsedQs :=
  { inputCurrency := QsValue.undef
    outputCurrency := QsValue.undef
    exactAmount := QsValue.undef
    exactField := QsValue.undef
    recipient := QsValue.undef }

/-! ## JS primitives used by the parsing layer -/

/-- JS whitespace (WhiteSpace ∪ LineTerminator) skipped by `parseFloat`. -/
def jsWhitespace (c : Char) : Bool :=
  c = ' ' || c = '\t' || c = '\n' || c = '\r' ||
  c = '\x0b' || c = '\x0c' || c = ' ' || c = '﻿' ||
  c = ' ' || c = ' ' || c = '　'

/-- Classification of a JS `parseFloat` result: `nan` (no numeric prefix),
`infinite` (an `Infinity` literal), or `finite` (a decimal literal; the
value itself is irrelevant to this layer, only the classification). -/
inductive FloatClass where
  | nan
  | infinite
  | finite
deriving DecidableEq, Repr

/-- `parseFloat` per ECMAScript `StrDecimalLiteral`: skip leading
whitespace, take an optional sign, then either the literal `Infinity`, or a
decimal literal beginning with a digit or with `.` followed by a digit.
Anything else yields NaN.  (Double-precision overflow of large finite
literals is not modelled; the literals are classified mathematically.) -/
def parseFloatClass (s : String) : FloatClass :=
  let cs := s.toList.dropWhile jsWhitespace
  let cs := match cs with
    | '+' :: t => t
    | '-' :: t => t
    | t => t
  if "Infinity".toList.isPrefixOf cs then FloatClass.infinite
  else
    match cs with
    | c :: rest =>
        if c.isDigit then FloatClass.finite
        else if c = '.' then
          match rest with
          | d :: _ => if d.isDigit then FloatClass.finite else FloatClass.nan
          | [] => FloatClass.nan
        else FloatClass.nan
    | [] => FloatClass.nan

/-- `String.prototype.toLowerCase`, restricted to ASCII case mapping (the
only comparison made with it is against the ASCII literal `"output"`). -/
def jsToLower (s : String) : String :=
  String.mk (s.toList.map Char.toLower)

/-! ## URL parameter parsers (lines 175-200 of `hooks.tsx`)

`isAddress` lives in `utils`, outside this file; it returns the normalized
address string when the input is a well-formed address and `false`
otherwise.  We model it as a parameter `isAddr : String → String` where the
empty string stands for the falsy result (`false`, or a falsy string). -/

/-- `parseCurrencyFromURLParameter`: a string that validates as an address
is kept (in validated form); everything else degrades to `''`. -/
def parseCurrencyFromURLParameter (isAddr : String → String) (urlParam : QsValue) : String :=
  match urlParam with
  | QsValue.str s =>
      let valid := isAddr s
      if valid ≠ "" then valid else ""
  | _ => ""

/-- `parseTokenAmountURLParameter`:
`typeof urlParam === 'string' && !isNaN(parseFloat(urlParam)) ? urlParam : ''`. -/
def parseTokenAmountURLParameter (urlParam : QsValue) : String :=
  match urlParam with
  | QsValue.str s => if parseFloatClass s ≠ FloatClass.nan then s else ""
  | _ => ""

/-- `parseIndependentFieldURLParameter`:
`typeof urlParam === 'string' && urlParam.toLowerCase() === 'output' ? OUTPUT : INPUT`. -/
def parseIndependentFieldURLParameter (urlParam : QsValue) : Field :=
  match urlParam with
  | QsValue.str s => if jsToLower s = "output" then Field.OUTPUT else Field.INPUT
  | _ => Field.INPUT

/-! ### The two recipient regexes

`ENS_NAME_REGEX = /^[-a-zA-Z0-9@:%._+~#=]{1,256}\.[a-zA-Z0-9()]{1,6}\b([-a-zA-Z0-9()@:%_+.~#?&\/=]*)?$/`
`ADDRESS_REGEX = /^0x[a-fA-F0-9]{40}$/`

`test` on an anchored pattern asks whether some decomposition of the whole
string matches, so the model is an executable search over decompositions. -/

/-- The character class `[-a-zA-Z0-9@:%._+~#=]` (first part of the ENS name). -/
def ensHeadClass (c : Char) : Bool :=
  c = '-' || c.isAlphanum || c = '@' || c = ':' || c = '%' || c = '.' ||
  c = '_' || c = '+' || c = '~' || c = '#' || c = '='

/-- The character class `[a-zA-Z0-9()]` (the 1-6 char TLD-like part). -/
def ensTldClass (c : Char) : Bool :=
  c.isAlphanum || c = '(' || c = ')'

/-- The character class `[-a-zA-Z0-9()@:%_+.~#?&/=]` (the tail part). -/
def ensTailClass (c : Char) : Bool :=
  c = '-' || c.isAlphanum || c = '(' || c = ')' || c = '@' || c = ':' ||
  c = '%' || c = '_' || c = '+' || c = '.' || c = '~' || c = '#' ||
  c = '?' || c = '&' || c = '/' || c = '='

/-- JS `\w`: `[A-Za-z0-9_]`. -/
def jsWordChar (c : Char) : Bool :=
  c.isAlphanum || c = '_'

/-- The `\b` word boundary sitting between the last character `l` of the
TLD part and the remaining input `z`: exactly one side is a word character
(end of input counts as a non-word side). -/
def wordBoundaryB (l : Char) (z : List Char) : Bool :=
  match z with
  | [] => jsWordChar l
  | c :: _ => xor (jsWordChar l) (jsWordChar c)

/-- Match `[a-zA-Z0-9()]{1,6}\b([-a-zA-Z0-9()@:%_+.~#?&/=]*)?$` against
`rest`: some split `rest = y ++ z` with `1 ≤ |y| ≤ 6` works. -/
def ensSuffixOk (rest : List Char) : Bool :=
  (List.range' 1 6).any fun j =>
    let y := rest.take j
    let z := rest.drop j
    decide (y.length = j) && y.all ensTldClass &&
    (match y.getLast? with
     | some l => wordBoundaryB l z
     | none => false) &&
    z.all ensTailClass

/-- `ENS_NAME_REGEX.test s`: some position `i` holds the mandatory dot,
preceded by 1-256 head-class characters and followed by a matching suffix. -/
def ensNameRegexTest (s : String) : Bool :=
  let cs := s.toList
  (List.range cs.length).any fun i =>
    decide (cs.get? i = some '.') && decide (1 ≤ i) && decide (i ≤ 256) &&
    (cs.take i).all ensHeadClass && ensSuffixOk (cs.drop (i + 1))

/-- An ASCII hex digit, the class `[a-fA-F0-9]`. -/
def hexDigit (c : Char) : Bool :=
  c.isDigit || ('a' ≤ c && c ≤ 'f') || ('A' ≤ c && c ≤ 'F')

/-- `ADDRESS_REGEX.test s`: `0x` followed by exactly 40 hex digits. -/
def addressRegexTest (s : String) : Bool :=
  match s.toList with
  | '0' :: 'x' :: rest => rest.length == 40 && rest.all hexDigit
  | _ => false

/-- `validatedRecipient`: non-strings are rejected; a string passes if the
address validator accepts it (returning its normalized form), or if it
matches the ENS-name regex, or the strict 40-hex-digit address regex. -/
def validatedRecipient (isAddr : String → String) (recipient : QsValue) : Option String :=
  match recipient with
  | QsValue.str s =>
      let address := isAddr s
      if address ≠ "" then some address
      else if ensNameRegexTest s then some s
      else if addressRegexTest s then some s
      else none
  | _ => none

/-- The chain's native asset identifier, the default input currency. -/
def nativeCoinId : String := "0x1::aptos_coin::AptosCoin"

/-- `queryParametersToSwapState` (lines 202-228): parse the five keys, apply
the all-empty default (input currency becomes the native asset) or else the
collision rule (identical input and output clears the output), and validate
the recipient. -/
def queryParametersToSwapState (isAddr : String → String) (parsedQs : ParsedQs) : SwapState :=
  let inputCurrency := parseCurrencyFromURLParameter isAddr parsedQs.inputCurrency
  let outputCurrency := parseCurrencyFromURLParameter isAddr parsedQs.outputCurrency
  let typedValue := parseTokenAmountURLParameter parsedQs.exactAmount
  let independentField := parseIndependentFieldURLParameter parsedQs.exactField
  -- lines 207-213: the first branch (all fields empty/default) reassigns
  -- `inputCurrency` to the native asset; the `else if` branch (identical
  -- currencies) reassigns `outputCurrency` to `''`
  let isAllEmpty :=
    inputCurrency = "" ∧ outputCurrency = "" ∧ typedValue = "" ∧ independentField = Field.INPUT
  let inputCurrencyF := if isAllEmpty then nativeCoinId else inputCurrency
  let outputCurrencyF :=
    if isAllEmpty then outputCurrency
    else if inputCurrency = outputCurrency then "" else outputCurrency
  let recipient := validatedRecipient isAddr parsedQs.recipient
  { INPUT := { currencyId := if inputCurrencyF = "" then none else some inputCurrencyF }
    OUTPUT := { currencyId := if outputCurrencyF = "" then none else some outputCurrencyF }
    typedValue := typedValue
    independentField := independentField
    recipient := recipient }

/-! ## The derived-info computer (`useDerivedSwapInfo`, lines 69-173)

Its external inputs — the connected account, the balance map, the coin
lookup behind `useCoin`, the amount parser `tryParseCoinAmount`, the
address validator, and the pricing hook `useAnimeSwapTempTrade` — are
bundled into an environment over which the theorems quantify.  `Decimal`
amounts are exact rationals; a JS `undefined`/`null` slot is `none`. -/

/-- The external asset descriptor resolved by `useCoin`. -/
structure Coin where
  address : String
  symbol : String
  decimals : Nat
deriving DecidableEq, Repr

/-- `TradeState` from `hooks/useBestTrade`. -/
inductive TradeState where
  | LOADING
  | INVALID
  | NO_ROUTE_FOUND
  | VALID
deriving DecidableEq, Repr

/-- `TradeType` from `hooks/useBestTrade`. -/
inductive TradeType where
  | EXACT_INPUT
  | EXACT_OUTPUT
deriving DecidableEq, Repr

/-- The pricing hook's result `{ state, trade }`: `maximumAmountIn` is
`trade.trade?.maximumAmountIn`, `none` when the trade object is null or the
bound is absent. -/
structure TradeResult where
  state : TradeState
  maximumAmountIn : Option ℚ
deriving DecidableEq, Repr

/-- The inputs of one evaluation of `useDerivedSwapInfo`. -/
structure SwapEnv where
  /-- `useAccount()`: the connected account address, if any. -/
  account : Option String
  /-- `useAllCoinBalance()`: coin address → balance (missing ⇒ undefined). -/
  allCoinBalances : String → Option ℚ
  /-- `useSwapState()`: the current swap store state. -/
  state : SwapState
  /-- `useCoin(currencyId)`: address → coin descriptor, if known. -/
  coinLookup : String → Option Coin
  /-- `isAddress` from `utils`; `""` stands for the falsy result. -/
  isAddr : String → String
  /-- `tryParseCoinAmount(typedValue, coin)`: `none` on parse failure. -/
  tryParse : String → Option Coin → Option ℚ
  /-- `useAnimeSwapTempTrade(tradeType, parsedAmount, inputCoin, outputCoin)`. -/
  quote : TradeType → Option ℚ → Option Coin → Option Coin → TradeResult

/-- JS truthiness of a `string | null | undefined` value: present and
non-empty. -/
def strTruthy : Option String → Bool
  | none => false
  | some s => s ≠ ""

/-- `inputCoin = useCoin(inputCurrencyId)`. -/
def inputCoin (env : SwapEnv) : Option Coin :=
  env.state.INPUT.currencyId.bind env.coinLookup

/-- `outputCoin = useCoin(outputCurrencyId)`. -/
def outputCoin (env : SwapEnv) : Option Coin :=
  env.state.OUTPUT.currencyId.bind env.coinLookup

/-- `to = (recipient === null ? account : recipient) ?? null`. -/
def derivedTo (env : SwapEnv) : Option String :=
  match env.state.recipient with
  | some r => some r
  | none => env.account

/-- `isExactIn = independentField === Field.INPUT`. -/
def isExactIn (env : SwapEnv) : Bool :=
  env.state.independentField = Field.INPUT

/-- `parsedAmount = tryParseCoinAmount(typedValue, isExactIn ? inputCoin : outputCoin)`. -/
def parsedAmount (env : SwapEnv) : Option ℚ :=
  env.tryParse env.state.typedValue (if isExactIn env then inputCoin env else outputCoin env)

/-- `trade = useAnimeSwapTempTrade(isExactIn ? EXACT_INPUT : EXACT_OUTPUT, parsedAmount, inputCoin, outputCoin)`. -/
def tradeOf (env : SwapEnv) : TradeResult :=
  env.quote (if isExactIn env then TradeType.EXACT_INPUT else TradeType.EXACT_OUTPUT)
    (parsedAmount env) (inputCoin env) (outputCoin env)

/-- `coinBalances[Field.INPUT] = Utils.d(allCoinBalances[inputCoin?.address])`:
absent when the input coin is unresolved or its balance entry is missing
(per the spec, missing entries resolve to undefined). -/
def balanceIn (env : SwapEnv) : Option ℚ :=
  (inputCoin env).bind fun c => env.allCoinBalances c.address

/-- `formattedTo = isAddress(to)` (with `isAddress(null)` falsy). -/
def formattedTo (env : SwapEnv) : String :=
  match derivedTo env with
  | some s => env.isAddr s
  | none => ""

/-- The recipient check passes when `to` is truthy and validates:
the error branch at line 145 is `if (!to || !formattedTo)`. -/
def recipientOK (env : SwapEnv) : Bool :=
  strTruthy (derivedTo env) && formattedTo env ≠ ""

/-- The overwriting balance check at line 150:
`balanceIn && amountIn && balanceIn < amountIn` (a `Decimal` is truthy
whenever present). -/
def insufficientCond (env : SwapEnv) : Bool :=
  match balanceIn env, (tradeOf env).maximumAmountIn with
  | some b, some a => decide (b < a)
  | _, _ => false

/-- `inputCoin.symbol` as read inside the insufficient-balance branch; the
input coin is necessarily resolved there (`balanceIn` exists only through
`inputCoin?.address`), so the fallback is unreachable under
`insufficientCond`. -/
def insufficientSymbol (env : SwapEnv) : String :=
  ((inputCoin env).map Coin.symbol).getD ""

/-- The error messages produced by the chain (the `<Trans>` nodes); the
insufficient-balance node interpolates the input coin's symbol. -/
inductive InputErrorMsg where
  | connectWallet
  | selectACoin
  | enterAnAmount
  | enterARecipient
  | insufficientBalance (symbol : String)
  | noRouteFound
deriving DecidableEq, Repr

/-- The nullish-coalescing fill `inputError ?? msg`: keeps an already-set
message, fills an empty slot. -/
def fillError (e : Option InputErrorMsg) (m : InputErrorMsg) : Option InputErrorMsg :=
  match e with
  | some x => some x
  | none => some m

/-- The `inputError` chain (lines 129-158).  Conditions (a)-(d) and the
no-route check only fill an empty slot via `??`; the insufficient-balance
check assigns unconditionally, overwriting whatever was set before. -/
def computeInputError (env : SwapEnv) : Option InputErrorMsg :=
  let e : Option InputErrorMsg :=
    if ¬ strTruthy env.account then some InputErrorMsg.connectWallet else none
  let e :=
    if (inputCoin env).isNone || (outputCoin env).isNone then
      fillError e InputErrorMsg.selectACoin
    else e
  let e :=
    if (parsedAmount env).isNone then fillError e InputErrorMsg.enterAnAmount else e
  let e :=
    if ¬ recipientOK env then fillError e InputErrorMsg.enterARecipient else e
  let e :=
    if insufficientCond env then
      some (InputErrorMsg.insufficientBalance (insufficientSymbol env))
    else e
  let e :=
    if (tradeOf env).state = TradeState.NO_ROUTE_FOUND then
      fillError e InputErrorMsg.noRouteFound
    else e
  e

/-! ## Action handlers -/

/-- The opposite swap side. -/
def otherField : Field → Field
  | Field.INPUT => Field.OUTPUT
  | Field.OUTPUT => Field.INPUT

/-- Modelled from the spec: the `switchCurrencies` reducer from
`state/swap/reducer` (dispatched by `onSwitchTokens`) is not among the
sources; per the spec it "swaps INPUT and OUTPUT sides (including which is
independent)", leaving the typed value and recipient alone. -/
def switchCurrencies (s : SwapState) : SwapState :=
  { s with
    INPUT := s.OUTPUT
    OUTPUT := s.INPUT
    independentField := otherField s.independentField }

/-! ## Spec-side predicate for the `exactAmount` refinement -/

/-- The spec's acceptance criterion for `exactAmount`, in its own words:
the string "parses as a finite decimal number". -/
def specParsesAsFiniteDecimal (s : String) : Prop :=
  parseFloatClass s = FloatClass.finite

instance (s : String) : Decidable (specParsesAsFiniteDecimal s) := by
  unfold specParsesAsFiniteDecimal
  infer_instance

/-! ## Concrete fixtures used to evaluate the theorems on closed inputs -/

/-- The native Aptos coin as a concrete descriptor. -/
def aptCoin : Coin := ⟨"0x1::aptos_coin::AptosCoin", "APT", 8⟩

/-- A second concrete coin. -/
def usdcCoin : Coin := ⟨"0xusdc", "USDC", 6⟩

/-- A concrete coin lookup resolving exactly the two fixture coins. -/
def fixtureLookup (a : String) : Option Coin :=
  if a = aptCoin.address then some aptCoin
  else if a = usdcCoin.address then some usdcCoin
  else none

/-- A swap store state with both coins picked, amount `2` typed on the
INPUT side, and a recipient string no validator accepts. -/
def fixtureState : SwapState :=
  { INPUT := ⟨some aptCoin.address⟩
    OUTPUT := ⟨some usdcCoin.address⟩
    typedValue := "2"
    independentField := Field.INPUT
    recipient := some "not a valid recipient" }

/-- An environment where the quoted `maximumAmountIn` (2) exceeds the
input-side balance (1) while the recipient is invalid: the earlier
enter-a-recipient message gets overwritten by the balance check. -/
def envInsufficient : SwapEnv :=
  { account := some "0xme"
    allCoinBalances := fun a => if a = aptCoin.address then some 1 else none
    state := fixtureState
    coinLookup := fixtureLookup
    isAddr := fun _ => ""
    tryParse := fun s _ => if s = "2" then some 2 else none
    quote := fun _ _ _ _ => ⟨TradeState.VALID, some 2⟩ }

/-- The same environment with the wallet disconnected: the balance check
still overwrites the connect-wallet message. -/
def envNoAccount : SwapEnv :=
  { envInsufficient with account := none }

/-- A fully idle environment: nothing connected, nothing selected. -/
def envDisconnected : SwapEnv :=
  { account := none
    allCoinBalances := fun _ => none
    state :=
      { INPUT := ⟨none⟩
        OUTPUT := ⟨none⟩
        typedValue := ""
        independentField := Field.INPUT
        recipient := none }
    coinLookup := fun _ => none
    isAddr := fun _ => ""
    tryParse := fun _ _ => none
    quote := fun _ _ _ _ => ⟨TradeState.LOADING, none⟩ }

/-- A query selecting the same currency on both sides. -/
def qCollision : ParsedQs :=
  { emptyQs with
    inputCurrency := QsValue.str "0xaaa"
    outputCurrency := QsValue.str "0xaaa" }

/-- A query whose `exactAmount` is the string `"Infinity"`. -/
def qInfinity : ParsedQs :=
  { emptyQs with exactAmount := QsValue.str "Infinity" }

/-- A query carrying only an ENS-style recipient. -/
def qEnsRecipient : ParsedQs :=
  { emptyQs with recipient := QsValue.str "bob.eth" }

/-- An environment where every check passes: connected account, both coins
resolved, parsed amount, recipient falling back to the account, balance 10
covering the required maximum 2, and a valid trade. -/
def envValid : SwapEnv :=
  { account := some "0xme"
    allCoinBalances := fun a => if a = aptCoin.address then some 10 else none
    state := { fixtureState with recipient := none }
    coinLookup := fixtureLookup
    isAddr := fun s => s
    tryParse := fun s _ => if s = "2" then some 2 else none
    quote := fun _ _ _ _ => ⟨TradeState.VALID, some 2⟩ }

/-- The identity address validator, used as a concrete `isAddr` in
witnesses (every string is accepted as already normalized). -/
def idValidator (s : String) : String := s

/-- The rejecting address validator: nothing is a well-formed address. -/
def noValidator (_ : String) : String := ""

/-! ## Shared helper lemmas -/

/-- `??` keeps an already-set message. -/
theorem fillError_some (x m : InputErrorMsg) : fillError (some x) m = some x := rfl

/-- `??` fills an empty slot. -/
theorem fillError_none (m : InputErrorMsg) : fillError none m = some m := rfl

/-- A filled slot is never empty. -/
theorem fillError_ne_none (e : Option InputErrorMsg) (m : InputErrorMsg) :
    fillError e m ≠ none := by
  cases e <;> simp [fillError]

/-- The recipient field of the parsed state is the validated recipient. -/
theorem queryParametersToSwapState_recipient (isAddr : String → String) (q : ParsedQs) :
    (queryParametersToSwapState isAddr q).recipient = validatedRecipient isAddr q.recipient := rfl

/-- The typed value of the parsed state is the parsed amount parameter. -/
theorem queryParametersToSwapState_typedValue (isAddr : String → String) (q : ParsedQs) :
    (queryParametersToSwapState isAddr q).typedValue = parseTokenAmountURLParameter q.exactAmount := rfl

/-- The independent field of the parsed state is the parsed field parameter. -/
theorem queryParametersToSwapState_independentField (isAddr : String → String) (q : ParsedQs) :
    (queryParametersToSwapState isAddr q).independentField =
      parseIndependentFieldURLParameter q.exactField := rfl

/-! ## Claims -/

/-- C1: whenever the input-side balance and the quote's `maximumAmountIn`
both exist with balance < maximum, the computed `inputError` is the
insufficient-balance message (interpolating the input coin's symbol) — with
no assumption on the account, coins, amount or recipient checks, so the
message overwrites anything conditions (a)-(d) may have set; in particular
it holds for every state with a connected account, both coins selected, a
parsed amount, a valid recipient, and such a quote. -/
theorem insufficientBalance_overwrites (env : SwapEnv) (c : Coin) (b a : ℚ)
    (hc : inputCoin env = some c)
    (hb : env.allCoinBalances c.address = some b)
    (ha : (tradeOf env).maximumAmountIn = some a)
    (hlt : b < a) :
    computeInputError env = some (InputErrorMsg.insufficientBalance c.symbol) := by
  have hbal : balanceIn env = some b := by
    unfold balanceIn
    rw [hc]
    exact hb
  have hcond : insufficientCond env = true := by
    unfold insufficientCond
    rw [hbal, ha]
    simp [hlt]
  have hsym : insufficientSymbol env = c.symbol := by
    unfold insufficientSymbol
    rw [hc]
    rfl
  simp only [computeInputError, hcond, hsym, if_true]
  split <;> rfl

/-- C1 witness: in `envInsufficient` (balance 1, required maximum 2, and a
recipient no validator accepts) the error is the insufficient-APT message. -/
theorem insufficientBalance_overwrites_witness :
    computeInputError envInsufficient = some (InputErrorMsg.insufficientBalance "APT") :=
  insufficientBalance_overwrites envInsufficient aptCoin 1 2
    (by decide) (by decide) (by decide) (by norm_num)

/-- C2 counterexample: with no connected account but a balance below the
quote's required maximum, `inputError` is the insufficient-balance message,
not "Connect Wallet" — the claim's "always Connect Wallet" fails. -/
theorem connectWallet_not_always_counterexample :
    envNoAccount.account = none ∧
    computeInputError envNoAccount = some (InputErrorMsg.insufficientBalance "APT") ∧
    computeInputError envNoAccount ≠ some InputErrorMsg.connectWallet := by
  refine ⟨rfl, by decide, by decide⟩

/-- C2 amended: with no connected account, `inputError` is "Connect Wallet"
unless the insufficient-balance overwrite fires (an input balance and a
quote maximum both present with balance < maximum). -/
theorem connectWallet_unless_insufficient (env : SwapEnv)
    (hacc : strTruthy env.account = false)
    (hins : insufficientCond env = false) :
    computeInputError env = some InputErrorMsg.connectWallet := by
  simp only [computeInputError, hacc, hins, Bool.false_eq_true, not_false_iff, if_true, if_false]
  split_ifs <;> rfl

/-- C2 witness: the idle disconnected environment satisfies both
hypotheses and surfaces "Connect Wallet". -/
theorem connectWallet_unless_insufficient_witness :
    strTruthy envDisconnected.account = false ∧
    insufficientCond envDisconnected = false ∧
    computeInputError envDisconnected = some InputErrorMsg.connectWallet :=
  ⟨by decide, by decide,
    connectWallet_unless_insufficient envDisconnected (by decide) (by decide)⟩

/-- C3: the empty query parses to the default state — input currency the
native asset, no output currency, empty typed value, INPUT independent, no
recipient; and in general whenever the four derived fields are all at
their empty/default values the input currency defaults to the native
asset. -/
theorem queryParametersToSwapState_default (isAddr : String → String) :
    queryParametersToSwapState isAddr emptyQs =
      { INPUT := ⟨some nativeCoinId⟩
        OUTPUT := ⟨none⟩
        typedValue := ""
        independentField := Field.INPUT
        recipient := none } ∧
    ∀ q : ParsedQs,
      parseCurrencyFromURLParameter isAddr q.inputCurrency = "" →
      parseCurrencyFromURLParameter isAddr q.outputCurrency = "" →
      parseTokenAmountURLParameter q.exactAmount = "" →
      parseIndependentFieldURLParameter q.exactField = Field.INPUT →
      (queryParametersToSwapState isAddr q).INPUT.currencyId = some nativeCoinId := by
  constructor
  · rfl
  · intro q h1 h2 h3 h4
    simp [queryParametersToSwapState, h1, h2, h3, h4, nativeCoinId]

/-- C3 witness: a query that is empty on the four derived fields but
carries a recipient still defaults the input currency to the native
asset. -/
theorem queryParametersToSwapState_default_witness :
    (queryParametersToSwapState noValidator qEnsRecipient).INPUT.currencyId = some nativeCoinId :=
  (queryParametersToSwapState_default noValidator).2 qEnsRecipient rfl rfl rfl rfl

/-- C4: when both currency parameters resolve to the same valid non-empty
address, the output selection is cleared while the input keeps the
resolved address. -/
theorem queryParametersToSwapState_collision (isAddr : String → String) (q : ParsedQs) (a : String)
    (hin : parseCurrencyFromURLParameter isAddr q.inputCurrency = a)
    (hout : parseCurrencyFromURLParameter isAddr q.outputCurrency = a)
    (hne : a ≠ "") :
    (queryParametersToSwapState isAddr q).INPUT.currencyId = some a ∧
    (queryParametersToSwapState isAddr q).OUTPUT.currencyId = none := by
  constructor <;> simp [queryParametersToSwapState, hin, hout, hne]

/-- C4 witness: `inputCurrency = outputCurrency = "0xaaa"` under the
identity validator keeps the input and clears the output. -/
theorem queryParametersToSwapState_collision_witness :
    (queryParametersToSwapState idValidator qCollision).INPUT.currencyId = some "0xaaa" ∧
    (queryParametersToSwapState idValidator qCollision).OUTPUT.currencyId = none :=
  queryParametersToSwapState_collision idValidator qCollision "0xaaa" rfl rfl (by decide)

/-- C5: the parsed recipient is non-null exactly when the parameter is a
string accepted by the address validator, or matching the ENS-style name
regex, or matching the strict 40-hex-digit address regex; non-strings and
everything else give null. -/
theorem recipient_nonNull_iff (isAddr : String → String) (q : ParsedQs) :
    (queryParametersToSwapState isAddr q).recipient ≠ none ↔
      ∃ s, q.recipient = QsValue.str s ∧
        (isAddr s ≠ "" ∨ ensNameRegexTest s = true ∨ addressRegexTest s = true) := by
  rw [queryParametersToSwapState_recipient]
  cases hq : q.recipient with
  | str s =>
      simp only [validatedRecipient, hq, QsValue.str.injEq]
      constructor
      · intro h
        refine ⟨s, rfl, ?_⟩
        by_cases h1 : isAddr s = "" <;> by_cases h2 : ensNameRegexTest s <;>
          by_cases h3 : addressRegexTest s <;> simp_all
      · rintro ⟨s1, hs1, h⟩
        cases hs1
        by_cases h1 : isAddr s = "" <;> by_cases h2 : ensNameRegexTest s <;>
          by_cases h3 : addressRegexTest s <;> simp_all
  | undef => simp [validatedRecipient, hq]
  | arr => simp [validatedRecipient, hq]
  | obj => simp [validatedRecipient, hq]

/-- C5 witness: `"bob.eth"` is rejected by the address validator but
matches the ENS-style regex, so the recipient is non-null. -/
theorem recipient_nonNull_iff_witness :
    (queryParametersToSwapState noValidator qEnsRecipient).recipient ≠ none :=
  (recipient_nonNull_iff noValidator qEnsRecipient).mpr
    ⟨"bob.eth", rfl, Or.inr (Or.inl (by decide))⟩

/-- C6 counterexample: `exactAmount = "Infinity"` is kept as the typed
value although it does not parse as a finite decimal number, refuting the
"if and only if finite" claim. -/
theorem exactAmount_infinity_counterexample :
    (queryParametersToSwapState noValidator qInfinity).typedValue = "Infinity" ∧
    ¬ specParsesAsFiniteDecimal "Infinity" := by
  constructor
  · rfl
  · decide

/-- C6 amended: the typed value is the parameter string exactly when
`parseFloat` on it does not yield NaN — which also admits the non-finite
`Infinity` literals; strings parsing to NaN, and non-string values, give
the empty string. -/
theorem exactAmount_accepted_iff_not_nan (isAddr : String → String) (q : ParsedQs) :
    (∀ s, q.exactAmount = QsValue.str s →
      (queryParametersToSwapState isAddr q).typedValue =
        (if parseFloatClass s = FloatClass.nan then "" else s)) ∧
    ((∀ s, q.exactAmount ≠ QsValue.str s) →
      (queryParametersToSwapState isAddr q).typedValue = "") := by
  constructor
  · intro s hs
    rw [queryParametersToSwapState_typedValue]
    simp only [parseTokenAmountURLParameter, hs]
    by_cases h : parseFloatClass s = FloatClass.nan <;> simp [h]
  · intro h
    rw [queryParametersToSwapState_typedValue]
    cases hq : q.exactAmount with
    | str s => exact absurd hq (h s)
    | undef => simp [parseTokenAmountURLParameter]
    | arr => simp [parseTokenAmountURLParameter]
    | obj => simp [parseTokenAmountURLParameter]

/-- C6 witness: at the concrete query `exactAmount = "Infinity"`, the
amended statement evaluates: `parseFloat` is non-NaN there, so the typed
value is the string itself. -/
theorem exactAmount_accepted_iff_not_nan_witness :
    (queryParametersToSwapState noValidator qInfinity).typedValue =
      (if parseFloatClass "Infinity" = FloatClass.nan then "" else "Infinity") :=
  (exactAmount_accepted_iff_not_nan noValidator qInfinity).1 "Infinity" rfl

/-- C7: the independent field is OUTPUT exactly when the `exactField`
parameter is a string equal to `"output"` ignoring case; every other value
(non-strings included) yields INPUT. -/
theorem exactField_output_iff (isAddr : String → String) (q : ParsedQs) :
    ((queryParametersToSwapState isAddr q).independentField = Field.OUTPUT ↔
      ∃ s, q.exactField = QsValue.str s ∧ jsToLower s = "output") ∧
    ((∀ s, q.exactField ≠ QsValue.str s) →
      (queryParametersToSwapState isAddr q).independentField = Field.INPUT) := by
  constructor
  · rw [queryParametersToSwapState_independentField]
    cases hq : q.exactField with
    | str s =>
        simp only [parseIndependentFieldURLParameter, QsValue.str.injEq]
        by_cases h : jsToLower s = "output" <;> simp [h]
    | undef => simp [parseIndependentFieldURLParameter]
    | arr => simp [parseIndependentFieldURLParameter]
    | obj => simp [parseIndependentFieldURLParameter]
  · intro h
    rw [queryParametersToSwapState_independentField]
    cases hq : q.exactField with
    | str s => exact absurd hq (h s)
    | undef => rfl
    | arr => rfl
    | obj => rfl

/-- C7 witness: `exactField = "OutPut"` selects OUTPUT. -/
theorem exactField_output_iff_witness :
    (queryParametersToSwapState noValidator
      { emptyQs with exactField := QsValue.str "OutPut" }).independentField = Field.OUTPUT :=
  (exactField_output_iff noValidator _).1.mpr ⟨"OutPut", rfl, by decide⟩

/-- C8: `queryParametersToSwapState` is total by construction and degrades
malformed values to the safe defaults: the currency ids are never the
unsafe empty string (they become null instead), the typed value is either
the given string parameter or the empty string, and the recipient is null
unless a string parameter was given. -/
theorem queryParametersToSwapState_total_safe (isAddr : String → String) (q : ParsedQs) :
    (queryParametersToSwapState isAddr q).INPUT.currencyId ≠ some "" ∧
    (queryParametersToSwapState isAddr q).OUTPUT.currencyId ≠ some "" ∧
    ((queryParametersToSwapState isAddr q).typedValue = "" ∨
      ∃ s, q.exactAmount = QsValue.str s ∧ (queryParametersToSwapState isAddr q).typedValue = s) ∧
    ((queryParametersToSwapState isAddr q).recipient = none ∨
      ∃ s, q.recipient = QsValue.str s) := by
  refine ⟨?_, ?_, ?_, ?_⟩
  · simp only [queryParametersToSwapState]
    split <;> simp_all
  · simp only [queryParametersToSwapState]
    split <;> simp_all
  · rw [queryParametersToSwapState_typedValue]
    cases hq : q.exactAmount with
    | str s =>
        simp only [parseTokenAmountURLParameter]
        by_cases h : parseFloatClass s = FloatClass.nan <;> simp [h, hq]
    | undef => simp [parseTokenAmountURLParameter]
    | arr => simp [parseTokenAmountURLParameter]
    | obj => simp [parseTokenAmountURLParameter]
  · rw [queryParametersToSwapState_recipient]
    cases hq : q.recipient with
    | str s => exact Or.inr ⟨s, rfl⟩
    | undef => simp [validatedRecipient]
    | arr => simp [validatedRecipient]
    | obj => simp [validatedRecipient]

/-- C8 witness: at the `"Infinity"` query the parsed input currency id is
not the unsafe empty string. -/
theorem queryParametersToSwapState_total_safe_witness :
    (queryParametersToSwapState noValidator qInfinity).INPUT.currencyId ≠ some "" :=
  (queryParametersToSwapState_total_safe noValidator qInfinity).1

/-- C9: switching tokens twice restores the original INPUT/OUTPUT currency
assignment and the original independent field. -/
theorem switchCurrencies_involution (s : SwapState) :
    (switchCurrencies (switchCurrencies s)).INPUT = s.INPUT ∧
    (switchCurrencies (switchCurrencies s)).OUTPUT = s.OUTPUT ∧
    (switchCurrencies (switchCurrencies s)).independentField = s.independentField := by
  refine ⟨rfl, rfl, ?_⟩
  cases h : s.independentField <;> simp [switchCurrencies, otherField, h]

/-- C10: no error is surfaced exactly when the account is connected, both
coins are resolved, the typed value parses, the resolved recipient is
truthy and validates as an address, no (balance, required-maximum) pair
exists with balance below the maximum, and the trade state is not
NO_ROUTE_FOUND. -/
theorem inputError_none_iff (env : SwapEnv) :
    computeInputError env = none ↔
      (strTruthy env.account = true ∧
       (inputCoin env).isSome = true ∧
       (outputCoin env).isSome = true ∧
       (parsedAmount env).isSome = true ∧
       recipientOK env = true ∧
       insufficientCond env = false ∧
       (tradeOf env).state ≠ TradeState.NO_ROUTE_FOUND) := by
  simp only [computeInputError]
  split_ifs with h1 h2 h3 h4 h5 h6 <;>
    simp_all [fillError, Option.isNone_iff_eq_none, Option.not_isSome_iff_eq_none,
      ← Option.ne_none_iff_isSome]
  all_goals tauto

/-- C10 witness: in the all-good environment every condition on the right
side holds, so no error is surfaced. -/
theorem inputError_none_iff_witness :
    computeInputError envValid = none :=
  (inputError_none_iff envValid).mpr (by decide)

end AnimSwap
